import Mathlib

/-!
Verification of the conversation-memory, SQL-chat-agent turn routing, and
task-tree callback-injection logic of this repository, via a shallow
embedding of the relevant Python source files:

* `src/verodat/agent_conversation.py` — `ConversationMemory`
* `src/langroid/agent/special/sql/sql_chat_agent.py` — `SQLChatAgent`
* `src/langroid/agent/callbacks/chainlit.py` — `ChainlitTaskCallbacks`

Python lists become `List`, dicts with fixed keys become structures,
exceptions become explicit error results, and mutation of `self` becomes
explicit state passing.
-/

set_option maxRecDepth 8192

namespace LangroidSpec

/-- An insight record, the dict `{"agent": ..., "point": ...}` built by
`ConversationMemory._extract_key_point`. -/
structure Insight where
  agent : String
  point : String
deriving DecidableEq, Repr

/-- Python slice `l[-k:]` for a nonnegative `k`: for `k = 0` this is the
whole list (since `-0 == 0`, the slice is `l[0:]`), otherwise the last
`min k (length l)` elements. -/
def pySliceLast (k : Nat) (l : List α) : List α :=
  if k = 0 then l else l.drop (l.length - k)

/-- The buffer update performed by `ConversationMemory.add_insight`
(`src/verodat/agent_conversation.py` lines 17-21) once the extracted
insight is available: append, then if the length exceeds `max_insights`,
keep the Python slice `self.insights[-self.max_insights:]`. -/
def add_insight_buf (max_insights : Nat) (insights : List Insight) (insight : Insight) : List Insight :=
  let appended := insights ++ [insight]
  if appended.length > max_insights then pySliceLast max_insights appended else appended

/-- The most recent `k` entries of a list (suffix of length `min k (length l)`). -/
def lastN (k : Nat) (l : List α) : List α :=
  l.drop (l.length - k)

/-- `ConversationMemory`: the `insights` buffer and the `max_insights` capacity.
The LLM client held by the Python object is an external capability and is
passed to `add_insight` as a function argument. -/
structure ConversationMemory where
  insights : List Insight
  max_insights : Nat
deriving DecidableEq, Repr

/-- Result of a call to `add_insight`: the post-state of the memory object
and, when the external summarization call raised, the propagated error. -/
structure AddInsightResult where
  memory : ConversationMemory
  error : Option String
deriving DecidableEq, Repr

/-- `ConversationMemory.add_insight(agent, content)`: first calls the external
summarization capability `_extract_key_point` (modelled as the function
argument `extract`, which may fail); if it raises, the exception propagates
before any mutation of `self.insights`; otherwise the insight is appended
and the buffer trimmed as in `add_insight_buf`. -/
def add_insight (extract : String → String → Except String Insight)
    (m : ConversationMemory) (agent content : String) : AddInsightResult :=
  match extract agent content with
  | .error e => ⟨m, some e⟩
  | .ok insight => ⟨{ m with insights := add_insight_buf m.max_insights m.insights insight }, none⟩

/-- `ConversationMemory.get_context()` (lines 23-29): empty string when the
buffer is empty, else the `"{agent}: {point}"` lines joined by newlines. -/
def get_context (m : ConversationMemory) : String :=
  if m.insights.isEmpty then ""
  else String.intercalate "\n" (m.insights.map fun i => i.agent ++ ": " ++ i.point)

/-- State-passing view of the `get_context` method: the method body only
reads `self.insights` and assigns nothing, so the post-state is the
pre-state. -/
def get_context_st (m : ConversationMemory) : String × ConversationMemory :=
  (get_context m, m)

/-- A summarization capability that always succeeds, turning the agent name
and raw content directly into an insight; used to run the spec scenarios. -/
def okExtract : String → String → Except String Insight :=
  fun a c => .ok ⟨a, c⟩

/-- A summarization capability that always raises, modelling a failed or
timed-out external extract-key-point call. -/
def failingExtract : String → String → Except String Insight :=
  fun _ _ => .error "SummarizationFailed"

/-- Modelled from the spec: the registered name of the run-query tool (the
`RunQueryTool` class lives in `langroid/agent/special/sql/utils/tools.py`,
outside `src/`); the system messages in `sql_chat_agent.py` refer to it as
`run_query`. -/
def runQueryToolName : String := "run_query"

/-- Modelled from the spec: the registered name of the Done (completion)
tool; its class lives in `langroid/agent/tools/orchestration.py`, outside
`src/`. -/
def doneToolName : String := "done_tool"

/-- Modelled from the spec: the registered name of the Forward tool; its
class lives in `langroid/agent/tools/orchestration.py`, outside `src/`. -/
def forwardToolName : String := "forward_tool"

/-- Fixed text of the chat-mode (chat-addressing) fallback message up to the
interpolated forward-tool name (`sql_chat_agent.py` lines 308-318). -/
def chatMsgPre : String :=
  "\n            Since you did not explicitly address the User, it is not clear\n            whether:\n            - you intend this to be the final response to the \n              user\x27s query/request, in which case you must use the \n              `"

/-- Fixed text of the chat-mode fallback message between the forward-tool
name and the interpolated tools instruction. -/
def chatMsgMid : String :=
  "` to indicate this.\n            - OR, you FORGOT to use an Appropriate TOOL,\n              in which case you should use the available tools to\n              make progress on the user\x27s query/request.\n              "

/-- Trailing fixed text of the chat-mode fallback message. -/
def chatMsgSuf : String := "            \n            "

/-- Fixed text of the task-completion fallback message up to the
interpolated done-tool name (`sql_chat_agent.py` lines 320-328). -/
def taskMsgPre : String :=
  "\n            The intent of your response is not clear:\n            - if you intended this to be the FINAL answer to the user\x27s query,\n                then use the `"

/-- Fixed text of the task-completion fallback message between the
done-tool name and the interpolated tools instruction. -/
def taskMsgMid : String :=
  "` to indicate so,\n                with the `content` set to the answer or result.\n            - otherwise, use one of the available tools to make progress \n                to arrive at the final answer.\n                "

/-- Trailing fixed text of the task-completion fallback message. -/
def taskMsgSuf : String := "\n            "

/-- The `tools_instruction` string built in `handle_message_fallback`
(lines 298-306): always suggests the run-query tool, plus the schema-tools
suggestion when `use_schema_tools` is configured. -/
def tools_instruction (use_schema_tools : Bool) : String :=
  ("\n          For example you may want to use the TOOL\n          `" ++
      (runQueryToolName ++ "` to further explore the database contents\n        ")) ++
    (if use_schema_tools then
      "\n            OR you may want to use one of the schema tools to \n            explore the database schema\n            "
    else "")

/-- The chat-addressing fallback message (chat mode): tells the agent to
address the User via the forward tool or use a tool. -/
def chat_mode_fallback_msg (ti : String) : String :=
  chatMsgPre ++ (forwardToolName ++ (chatMsgMid ++ (ti ++ chatMsgSuf)))

/-- The task-completion fallback message (non-chat mode): tells the agent
to use the done tool with the final answer or continue with tools. -/
def task_mode_fallback_msg (ti : String) : String :=
  taskMsgPre ++ (doneToolName ++ (taskMsgMid ++ (ti ++ taskMsgSuf)))

/-- The flags of a `SQLChatAgent` consulted by `handle_message_fallback`:
the per-turn flags `llm_responded` and `used_run_query` (class attributes),
the framework `interactive` flag, and the config flags `chat_mode` and
`use_schema_tools`. -/
structure SQLAgentView where
  llm_responded : Bool
  used_run_query : Bool
  interactive : Bool
  chat_mode : Bool
  use_schema_tools : Bool
deriving DecidableEq, Repr

/-- Return value of `handle_message_fallback`, whose Python signature is
`str | ForwardTool | None`. -/
inductive FallbackResult where
  | noResult
  | forwardTool (agent : String)
  | message (s : String)
deriving DecidableEq, Repr

/-- `SQLChatAgent.handle_message_fallback` (lines 285-328): invoked when the
current message is not a tool. Returns `None` unless the LLM produced the
message; forwards to the User when interactive; otherwise returns the
chat-addressing or task-completion instructional message per `chat_mode`. -/
def handle_message_fallback (a : SQLAgentView) : FallbackResult :=
  if !a.llm_responded then .noResult
  else if a.interactive then .forwardTool "User"
  else if a.chat_mode then
    .message (chat_mode_fallback_msg (tools_instruction a.use_schema_tools))
  else
    .message (task_mode_fallback_msg (tools_instruction a.use_schema_tools))

/-- Flag effect of `SQLChatAgent.llm_response` (lines 270-275) before
delegating to the framework. -/
def llm_response_flags (a : SQLAgentView) : SQLAgentView :=
  { a with llm_responded := true, used_run_query := false }

/-- Flag effect of `SQLChatAgent.user_response` (lines 277-283) before
delegating to the framework. -/
def user_response_flags (a : SQLAgentView) : SQLAgentView :=
  { a with llm_responded := false, used_run_query := false }

/-- The tool kinds enabled by `SQLChatAgent._init_message_tools`
(lines 231-249). -/
inductive ToolKind where
  | runQuery
  | forward
  | done
  | getTableNames
  | getTableSchema
  | getColumnDescriptions
deriving DecidableEq, Repr

/-- The tools enabled by `_init_message_tools`: always `RunQueryTool` and
`ForwardTool`; the three schema tools when `use_schema_tools`; `DoneTool`
only when not `chat_mode`. -/
def enabled_tools (chat_mode use_schema_tools : Bool) : List ToolKind :=
  [.runQuery, .forward] ++
    (if use_schema_tools then
      [.getTableNames, .getTableSchema, .getColumnDescriptions]
    else []) ++
    (if chat_mode then [] else [.done])

/-- A langroid `Task`: it owns one agent (identified here by a number) and
an ordered list of sub-tasks. -/
inductive Task where
  | node (agent : Nat) (sub_tasks : List Task)

/-- `ChainlitTaskCallbacks._inject_callbacks` (`chainlit.py` lines 445-450),
threaded over the list of agents already patched with the callback set:
patch the task's own agent, then recurse into each sub-task in order. The
state-passing form records the patch order. -/
def inject_callbacks_list : List Task → List Nat → List Nat
  | [], patched => patched
  | .node a subs :: ts, patched =>
      inject_callbacks_list ts (inject_callbacks_list subs (patched ++ [a]))

/-- Injection starting at a single root task, as done by the
`ChainlitTaskCallbacks` constructor. -/
def inject_callbacks (t : Task) (patched : List Nat) : List Nat :=
  inject_callbacks_list [t] patched

/-- Pre-order listing of the agents of a forest of tasks. -/
def task_agents_list : List Task → List Nat
  | [] => []
  | .node a subs :: ts => (a :: task_agents_list subs) ++ task_agents_list ts

/-- Pre-order listing of the agents of a task tree: the root's agent and,
transitively, every sub-task's agent. -/
def task_agents (t : Task) : List Nat :=
  task_agents_list [t]

/-- A concrete task tree: a root with two sub-tasks, one of which has a
nested sub-task. -/
def sampleTaskTree : Task :=
  .node 0 [.node 1 [.node 3 []], .node 2 []]

/-- The string `SQL_ERROR_MSG` (`sql_chat_agent.py` line 88). -/
def SQL_ERROR_MSG : String := "There was an error in your SQL Query"

/-- The `optional_schema_description` block built by `retry_query`
(lines 343-354): present exactly when schema tools are not in use. -/
def optional_schema_description (use_schema_tools : Bool) (context_descriptions : String) : String :=
  if !use_schema_tools then
    "            This JSON schema maps SQL database structure. It outlines tables, each \n            with a description and columns. Each table is identified by a key, and holds\n            a description and a dictionary of columns, with column \n            names as keys and their descriptions as values.\n            \n            ```json\n            " ++
      (context_descriptions ++ "\n            ```")
  else ""

/-- `SQLChatAgent.retry_query(e, query)` (lines 330-363): the retry
directive built after a failed SQL query, containing `SQL_ERROR_MSG`, the
failed query in quotes, the exception message, and the instruction to run a
corrected query. The template opens with a backslash line continuation, so
the string starts with the 8-space indentation of the template's first
line, not with `SQL_ERROR_MSG` itself. -/
def retry_query (use_schema_tools : Bool) (context_descriptions e query : String) : String :=
  "        " ++
    (SQL_ERROR_MSG ++
      (": \x27" ++
        (query ++
          ("\x27\n        " ++
            (e ++
              ("\n        Run a new query, correcting the errors.\n        " ++
                optional_schema_description use_schema_tools context_descriptions))))))

/-- `SQLChatAgent._format_rows` (lines 404-419): comma-newline join of the
row strings, or a success message when no rows came back. -/
def format_rows (rows : List String) : String :=
  if rows.isEmpty then "Query executed successfully."
  else String.intercalate ",\n" rows

/-- Abstract outcome of `session.execute(text(query))`, `session.commit()`
and the subsequent fetch inside `run_query`: fetched rows, a non-SELECT
statement (the fetch raised `ResourceClosedError`), or a raised
`SQLAlchemyError` carrying its message. -/
inductive ExecOutcome where
  | rows (rs : List String)
  | nonSelect (affected : Nat)
  | dbError (e : String)

/-- A `RunQueryTool` message: carries the SQL query text. -/
structure RunQueryToolMsg where
  query : String

/-- Session operations performed by `run_query`, in order. -/
inductive SessionAct where
  | execute
  | commit
  | rollback
  | close
deriving DecidableEq, Repr

/-- Result of `run_query`: the returned string, the `used_run_query` flag
it set, and the session operations it performed. -/
structure RunQueryResult where
  response : String
  used_run_query : Bool
  session_actions : List SessionAct

/-- `SQLChatAgent.run_query(msg)` (lines 365-402): executes the query
(abstracted as `exec`); on success formats rows or reports affected rows
after commit; on `SQLAlchemyError` rolls back and returns the retry
directive instead of propagating; the session is always closed. -/
def run_query (exec : String → ExecOutcome) (use_schema_tools : Bool)
    (context_descriptions : String) (msg : RunQueryToolMsg) : RunQueryResult :=
  match exec msg.query with
  | .rows rs =>
      ⟨format_rows rs, true, [.execute, .commit, .close]⟩
  | .nonSelect affected =>
      ⟨"\n                    Non-SELECT query executed successfully. \n                    Rows affected: " ++
          (toString affected ++ "\n                    "),
        true, [.execute, .commit, .close]⟩
  | .dbError e =>
      ⟨retry_query use_schema_tools context_descriptions e msg.query,
        true, [.execute, .rollback, .close]⟩

lemma add_insight_buf_eq_lastN {max_insights : Nat} (h : 1 ≤ max_insights)
    (insights : List Insight) (insight : Insight) :
    add_insight_buf max_insights insights insight = lastN max_insights (insights ++ [insight]) := by
  unfold add_insight_buf pySliceLast lastN
  by_cases hlen : (insights ++ [insight]).length > max_insights
  · simp only [hlen, if_true]
    have hk : max_insights ≠ 0 := by omega
    simp [hk]
  · simp only [hlen, if_false]
    have hle : (insights ++ [insight]).length ≤ max_insights := by omega
    rw [Nat.sub_eq_zero_of_le hle, List.drop_zero]

lemma lastN_append (k : Nat) (l r : List α) :
    lastN k (lastN k l ++ r) = lastN k (l ++ r) := by
  unfold lastN
  rw [List.drop_append_eq_append_drop, List.drop_append_eq_append_drop,
    List.drop_drop]
  simp only [List.length_append, List.length_drop]
  congr 1
  · congr 1
    omega
  · congr 1
    omega

lemma foldl_add_insight_buf_eq_lastN {max_insights : Nat} (h : 1 ≤ max_insights)
    (is : List Insight) :
    is.foldl (add_insight_buf max_insights) [] = lastN max_insights is := by
  induction is using List.reverseRecOn with
  | nil => simp [lastN]
  | append_singleton l x ih =>
      rw [List.foldl_append, List.foldl_cons, List.foldl_nil, ih,
        add_insight_buf_eq_lastN h, lastN_append]

lemma lastN_length_le (k : Nat) (l : List α) : (lastN k l).length ≤ k := by
  simp only [lastN, List.length_drop]
  omega

/-- Claim C1 (amended to positive capacities): for every `max_insights ≥ 1`
and every sequence of successful `add_insight` calls starting from an empty
buffer, the buffer afterwards holds at most `max_insights` entries and is
exactly the suffix of most recently added entries (oldest evicted first). -/
theorem add_insight_bounded_most_recent {max_insights : Nat} (h : 1 ≤ max_insights)
    (is : List Insight) :
    (is.foldl (add_insight_buf max_insights) []).length ≤ max_insights ∧
    is.foldl (add_insight_buf max_insights) [] = lastN max_insights is := by
  refine ⟨?_, foldl_add_insight_buf_eq_lastN h is⟩
  rw [foldl_add_insight_buf_eq_lastN h is]
  exact lastN_length_le max_insights is

/-- Claim C1 witness: capacity 2, three insights added in order; the buffer
holds the last two. -/
theorem add_insight_bounded_most_recent_witness :
    1 ≤ 2 ∧
    ((([⟨"A", "a"⟩, ⟨"B", "b"⟩, ⟨"C", "c"⟩] : List Insight).foldl
        (add_insight_buf 2) []).length ≤ 2 ∧
      ([⟨"A", "a"⟩, ⟨"B", "b"⟩, ⟨"C", "c"⟩] : List Insight).foldl
        (add_insight_buf 2) [] = lastN 2 [⟨"A", "a"⟩, ⟨"B", "b"⟩, ⟨"C", "c"⟩]) :=
  ⟨by decide, add_insight_bounded_most_recent (by decide)
    [⟨"A", "a"⟩, ⟨"B", "b"⟩, ⟨"C", "c"⟩]⟩

/-- Claim C1 counterexample: with `max_insights = 0` the Python slice
`self.insights[-0:]` is the whole list, so after two `add_insight` calls the
buffer holds two entries, not at most zero. -/
theorem add_insight_capacity_zero_counterexample :
    ([⟨"A", "a"⟩, ⟨"B", "b"⟩] : List Insight).foldl (add_insight_buf 0) [] =
      [⟨"A", "a"⟩, ⟨"B", "b"⟩] ∧
    ¬ ((([⟨"A", "a"⟩, ⟨"B", "b"⟩] : List Insight).foldl
        (add_insight_buf 0) []).length ≤ 0) := by
  decide

/-- Claim C5: when the external summarization call raises, `add_insight`
propagates the error and the insights buffer is unchanged; the raw content
is never stored. -/
theorem add_insight_error_propagates
    (extract : String → String → Except String Insight)
    (m : ConversationMemory) (agent content e : String)
    (h : extract agent content = .error e) :
    add_insight extract m agent content = ⟨m, some e⟩ := by
  simp [add_insight, h]

/-- Claim C5 witness: a failing extractor on a concrete memory leaves the
memory unchanged and surfaces the error. -/
theorem add_insight_error_propagates_witness :
    failingExtract "CEO" "raw content" = .error "SummarizationFailed" ∧
    add_insight failingExtract ⟨[], 5⟩ "CEO" "raw content" =
      ⟨⟨[], 5⟩, some "SummarizationFailed"⟩ :=
  ⟨rfl, add_insight_error_propagates failingExtract ⟨[], 5⟩ "CEO" "raw content"
    "SummarizationFailed" rfl⟩

/-- Claim C6: `get_context` renders the retained insights as
`"agent: point"` lines joined by newlines in insertion order (the empty
buffer yields the empty string, which coincides with joining no lines); and
the spec scenario: capacity 2, add A then B then C, `get_context` returns
exactly the B line, a newline, and the C line. -/
theorem get_context_newline_join :
    (∀ m : ConversationMemory,
      get_context m =
        String.intercalate "\n" (m.insights.map fun i => i.agent ++ ": " ++ i.point)) ∧
    get_context (add_insight okExtract
      (add_insight okExtract
        (add_insight okExtract ⟨[], 2⟩ "A" "a").memory "B" "b").memory
      "C" "c").memory = "B: b\nC: c" := by
  constructor
  · intro m
    rw [get_context]
    by_cases h : m.insights.isEmpty
    · rw [if_pos h, List.isEmpty_iff.mp h]
      rfl
    · rw [if_neg h]
  · decide

/-- Claim C7: `get_context` reads the buffer without mutating it, so two
successive calls with no intervening `add_insight` return identical strings
and leave the memory unchanged. -/
theorem get_context_idempotent_pure :
    ∀ m : ConversationMemory,
      (get_context_st ((get_context_st m).2)).1 = (get_context_st m).1 ∧
      (get_context_st m).2 = m :=
  fun _ => ⟨rfl, rfl⟩

lemma taskMsgPre_data_get13 : taskMsgPre.data[13]? = some 'T' := by decide

lemma chatMsgPre_data_get13 : chatMsgPre.data[13]? = some 'S' := by decide

lemma task_msg_ne_chat_msg (s t : String) :
    task_mode_fallback_msg s ≠ chat_mode_fallback_msg t := by
  intro h
  have hT : (task_mode_fallback_msg s).data[13]? = some 'T' := by
    rw [task_mode_fallback_msg, String.data_append,
      List.getElem?_append_left (by decide : 13 < taskMsgPre.data.length)]
    exact taskMsgPre_data_get13
  have hS : (chat_mode_fallback_msg t).data[13]? = some 'S' := by
    rw [chat_mode_fallback_msg, String.data_append,
      List.getElem?_append_left (by decide : 13 < chatMsgPre.data.length)]
    exact chatMsgPre_data_get13
  rw [h, hS] at hT
  exact absurd hT (by decide)

/-- Claim C2: for a non-tool message produced by the LLM turn, with the
agent non-interactive and `chat_mode = false`, `handle_message_fallback`
returns the task-completion instructional message and never the
chat-addressing one. -/
theorem fallback_task_mode_variant (a : SQLAgentView)
    (h1 : a.llm_responded = true) (h2 : a.interactive = false)
    (h3 : a.chat_mode = false) :
    handle_message_fallback a =
      .message (task_mode_fallback_msg (tools_instruction a.use_schema_tools)) ∧
    ∀ ti, handle_message_fallback a ≠ .message (chat_mode_fallback_msg ti) := by
  have hres : handle_message_fallback a =
      .message (task_mode_fallback_msg (tools_instruction a.use_schema_tools)) := by
    simp [handle_message_fallback, h1, h2, h3]
  refine ⟨hres, fun ti hcontra => ?_⟩
  rw [hres] at hcontra
  exact task_msg_ne_chat_msg _ ti (FallbackResult.message.inj hcontra)

/-- Claim C2 witness: a concrete LLM-produced, non-interactive, non-chat
agent state gets the task-completion message, not the chat-addressing one. -/
theorem fallback_task_mode_variant_witness :
    (⟨true, false, false, false, false⟩ : SQLAgentView).llm_responded = true ∧
    handle_message_fallback ⟨true, false, false, false, false⟩ =
      .message (task_mode_fallback_msg (tools_instruction false)) ∧
    handle_message_fallback ⟨true, false, false, false, false⟩ ≠
      .message (chat_mode_fallback_msg (tools_instruction false)) :=
  ⟨rfl,
    (fallback_task_mode_variant ⟨true, false, false, false, false⟩ rfl rfl rfl).1,
    (fallback_task_mode_variant ⟨true, false, false, false, false⟩ rfl rfl rfl).2
      (tools_instruction false)⟩

/-- Claim C3: for a non-tool message produced by the LLM turn with the
agent interactive, `handle_message_fallback` returns a ForwardTool directive
addressed to "User", regardless of `chat_mode`. -/
theorem fallback_interactive_forwards_to_user (a : SQLAgentView)
    (h1 : a.llm_responded = true) (h2 : a.interactive = true) :
    handle_message_fallback a = .forwardTool "User" := by
  simp [handle_message_fallback, h1, h2]

/-- Claim C3 witness: a concrete interactive agent state (with
`chat_mode = true`) forwards to the User. -/
theorem fallback_interactive_forwards_to_user_witness :
    (⟨true, false, true, true, false⟩ : SQLAgentView).llm_responded = true ∧
    handle_message_fallback ⟨true, false, true, true, false⟩ =
      .forwardTool "User" :=
  ⟨rfl, fallback_interactive_forwards_to_user ⟨true, false, true, true, false⟩ rfl rfl⟩

/-- Claim C4: after `user_response` ran last (it sets `llm_responded` to
false), `handle_message_fallback` returns `None` for every agent state:
fallback classification happens only after a language-model turn. -/
theorem fallback_after_user_turn_is_none (a : SQLAgentView) :
    handle_message_fallback (user_response_flags a) = .noResult := by
  simp [handle_message_fallback, user_response_flags]

/-- Claim C10: in chat mode the DoneTool is never enabled (only RunQuery,
Forward, and the schema tools when configured), while outside chat mode the
DoneTool is always enabled. -/
theorem chat_mode_excludes_done_tool :
    ∀ use_schema_tools : Bool,
      ToolKind.done ∉ enabled_tools true use_schema_tools ∧
      ToolKind.done ∈ enabled_tools false use_schema_tools ∧
      enabled_tools true use_schema_tools =
        [.runQuery, .forward] ++
          (if use_schema_tools then
            [.getTableNames, .getTableSchema, .getColumnDescriptions]
          else []) := by
  intro ust
  cases ust <;> decide

theorem inject_callbacks_list_eq :
    ∀ (ts : List Task) (patched : List Nat),
      inject_callbacks_list ts patched = patched ++ task_agents_list ts
  | [], patched => by
      simp [inject_callbacks_list, task_agents_list]
  | .node a subs :: ts, patched => by
      rw [inject_callbacks_list, task_agents_list,
        inject_callbacks_list_eq subs (patched ++ [a]),
        inject_callbacks_list_eq ts ((patched ++ [a]) ++ task_agents_list subs)]
      simp

/-- Claim C8: constructing `ChainlitTaskCallbacks` on a root task patches
the root's agent and, by pre-order traversal, the agent of every sub-task
transitively: the patched set is exactly the pre-order agent list, so no
sub-task's agent lacks the callback set. -/
theorem inject_callbacks_reaches_all_agents (t : Task) :
    inject_callbacks t [] = task_agents t ∧
    ∀ a, a ∈ task_agents t → a ∈ inject_callbacks t [] := by
  have h : inject_callbacks t [] = task_agents t := by
    rw [inject_callbacks, task_agents, inject_callbacks_list_eq]
    simp
  exact ⟨h, fun a ha => h ▸ ha⟩

/-- Claim C8 witness: on a concrete three-level tree the injection reaches
the deepest agent. -/
theorem inject_callbacks_reaches_all_agents_witness :
    inject_callbacks sampleTaskTree [] = task_agents sampleTaskTree ∧
    3 ∈ task_agents sampleTaskTree ∧
    3 ∈ inject_callbacks sampleTaskTree [] :=
  ⟨(inject_callbacks_reaches_all_agents sampleTaskTree).1,
    by simp [sampleTaskTree, task_agents, task_agents_list],
    (inject_callbacks_reaches_all_agents sampleTaskTree).2 3
      (by simp [sampleTaskTree, task_agents, task_agents_list])⟩

/-- Claim C9: when executing the query raises a database error, `run_query`
does not propagate it: it rolls back (then closes) the session and returns
the retry directive, which contains `SQL_ERROR_MSG`, the failed query text,
and the exception message. -/
theorem run_query_db_error_retry_directive
    (exec : String → ExecOutcome) (use_schema_tools : Bool)
    (context_descriptions : String) (msg : RunQueryToolMsg) (e : String)
    (h : exec msg.query = .dbError e) :
    (run_query exec use_schema_tools context_descriptions msg).response =
      retry_query use_schema_tools context_descriptions e msg.query ∧
    (run_query exec use_schema_tools context_descriptions msg).session_actions =
      [.execute, .rollback, .close] ∧
    (∃ p s, (run_query exec use_schema_tools context_descriptions msg).response =
      p ++ (SQL_ERROR_MSG ++ s)) ∧
    (∃ p s, (run_query exec use_schema_tools context_descriptions msg).response =
      p ++ (msg.query ++ s)) ∧
    (∃ p s, (run_query exec use_schema_tools context_descriptions msg).response =
      p ++ (e ++ s)) := by
  have hresp : (run_query exec use_schema_tools context_descriptions msg).response =
      retry_query use_schema_tools context_descriptions e msg.query := by
    simp [run_query, h]
  refine ⟨hresp, by simp [run_query, h], ?_, ?_, ?_⟩
  · refine ⟨"        ",
      ": \x27" ++
        (msg.query ++
          ("\x27\n        " ++
            (e ++
              ("\n        Run a new query, correcting the errors.\n        " ++
                optional_schema_description use_schema_tools context_descriptions)))), ?_⟩
    rw [hresp, retry_query]
  · refine ⟨"        " ++ (SQL_ERROR_MSG ++ ": \x27"),
      "\x27\n        " ++
        (e ++
          ("\n        Run a new query, correcting the errors.\n        " ++
            optional_schema_description use_schema_tools context_descriptions)), ?_⟩
    rw [hresp, retry_query]
    simp only [String.append_assoc]
  · refine ⟨"        " ++ (SQL_ERROR_MSG ++ (": \x27" ++ (msg.query ++ "\x27\n        "))),
      "\n        Run a new query, correcting the errors.\n        " ++
        optional_schema_description use_schema_tools context_descriptions, ?_⟩
    rw [hresp, retry_query]
    simp only [String.append_assoc]

/-- Claim C9 witness: a concrete failing execution yields the retry
directive with the query and error embedded. -/
theorem run_query_db_error_retry_directive_witness :
    (fun _ : String => ExecOutcome.dbError "syntax error") "SELECT *" =
      ExecOutcome.dbError "syntax error" ∧
    ((run_query (fun _ => ExecOutcome.dbError "syntax error") false "ctx"
        ⟨"SELECT *"⟩).response =
      retry_query false "ctx" "syntax error" "SELECT *" ∧
    (run_query (fun _ => ExecOutcome.dbError "syntax error") false "ctx"
        ⟨"SELECT *"⟩).session_actions = [.execute, .rollback, .close]) :=
  ⟨rfl,
    (run_query_db_error_retry_directive (fun _ => ExecOutcome.dbError "syntax error")
      false "ctx" ⟨"SELECT *"⟩ "syntax error" rfl).1,
    (run_query_db_error_retry_directive (fun _ => ExecOutcome.dbError "syntax error")
      false "ctx" ⟨"SELECT *"⟩ "syntax error" rfl).2.1⟩

end LangroidSpec
